import Mathlib

/-!
Verification development for the sector-rotation chart generator
(`src/main.py`).  The quantitative core of the program is shallowly
embedded below:

* dates are modelled as integers (whole days), matching the daily
  calendar arithmetic of the source;
* the pandas `DataFrame` of closing prices is modelled by `DataFrame`:
  a row index (list of dates), a list of column names, and a cell
  function returning `Option ℚ`, where `none` models a missing value
  (`NaN`);
* prices are exact rationals; the angle/cosine/sine arithmetic of the
  aggregation step is carried out over the real numbers.
-/

/-- A pandas price table: the row index (dates, in row order), the set
of instrument columns, and the cell contents (`none` models `NaN`). -/
structure DataFrame where
  index : List ℤ
  cols : List String
  entry : String → ℤ → Option ℚ

/-- One `SECTORS` entry: ETF code, display name, clock position, quadrant. -/
structure Sector where
  code : String
  name : String
  clock : ℚ
  area : String
deriving DecidableEq

/-- The static instrument table (`SECTORS`, main.py lines 31-47). -/
def SECTORS : List Sector :=
  [⟨"XLK", "テクノロジー", 10.5, "NW"⟩,
   ⟨"XLY", "一般消費財", 11.5, "NW"⟩,
   ⟨"XLC", "通信サービス", 9.5, "NW"⟩,
   ⟨"XLI", "資本財", 1.5, "NE"⟩,
   ⟨"XLB", "素材", 0.5, "NE"⟩,
   ⟨"XLF", "金融", 2.5, "NE"⟩,
   ⟨"XLE", "エネルギー", 4.5, "SE"⟩,
   ⟨"XLRE", "不動産", 5.5, "SE"⟩,
   ⟨"XLV", "ヘルスケア", 7.5, "SW"⟩,
   ⟨"XLP", "生活必需品", 6.5, "SW"⟩,
   ⟨"XLU", "公益事業", 8.5, "SW"⟩]

/-- One row of the `PHASES` table: label plus the two expected signs. -/
structure PhaseSpec where
  name : String
  x_sign : ℤ
  y_sign : ℤ
deriving DecidableEq

/-- The phase-quadrant table (`PHASES`, main.py lines 49-54), in the
insertion order iterated by the classification loop. -/
def PHASES : List PhaseSpec :=
  [⟨"回復期", -1, 1⟩, ⟨"好況期", 1, 1⟩, ⟨"後退期", 1, -1⟩, ⟨"不況期", -1, -1⟩]

/-- Embedding of `check_market_open` (main.py lines 74-90): proceed unless the
latest data date is more than one whole day behind the current UTC
date.  `diff = (today - latest_date).days`. -/
def check_market_open (latest today : ℤ) : Bool :=
  if today - latest > 1 then false else true

/-- Embedding of `df[df.index <= target_date]`: the rows at or before the as-of
date, in row order (main.py line 97). -/
def dataUntil (df : DataFrame) (target : ℤ) : List ℤ :=
  df.index.filter (fun d => d ≤ target)

/-- Embedding of `data_until.iloc[-200:]`: the trailing (up to) 200 rows
(main.py line 102).  When fewer than 200 rows exist, `iloc[-200:]`
keeps them all, as does `drop` with a truncated subtraction. -/
def windowRows (df : DataFrame) (target : ℤ) : List ℤ :=
  (dataUntil df target).drop ((dataUntil df target).length - 200)

/-- The observed (non-missing) values of one column among the trailing
200 rows; pandas `mean()` averages exactly these (`skipna=True`). -/
def windowVals (df : DataFrame) (target : ℤ) (c : String) : List ℚ :=
  (windowRows df target).filterMap (df.entry c)

/-- Per-column `data_until.iloc[-200:].mean()` (main.py line 102):
the mean of the observed values, `NaN` (`none`) when there are none. -/
def ma200 (df : DataFrame) (target : ℤ) (c : String) : Option ℚ :=
  if windowVals df target c = [] then none
  else some ((windowVals df target c).sum / ((windowVals df target c).length : ℚ))

/-- Embedding of `data_until.iloc[-1]` at one column (main.py line 101): the value
of the last row at or before the as-of date (`none` when the cell is
missing or there is no such row). -/
def currentPrice (df : DataFrame) (target : ℤ) (c : String) : Option ℚ :=
  (dataUntil df target).getLast?.bind (df.entry c)

/-- Embedding of `(current_prices - ma200) / ma200 * 100` at one column
(main.py line 103); `NaN` propagates through the arithmetic.
(The exact-arithmetic model makes no special case of a zero mean;
with positive prices, as in `posPricesB`, the mean of a nonempty
window is nonzero and the two semantics agree.) -/
def deviation (df : DataFrame) (target : ℤ) (c : String) : Option ℚ :=
  match currentPrice df target c, ma200 df target c with
  | some cp, some m => some ((cp - m) / m * 100)
  | _, _ => none

/-- Number of observed (non-missing) values of an instrument on or
before a date — the "observations" counted by the spec's
insufficient-history precondition. -/
def obsCount (df : DataFrame) (c : String) (target : ℤ) : ℕ :=
  ((dataUntil df target).filterMap (df.entry c)).length

/-- Every observed price in the table is positive (true of any real
price series; rules out the degenerate zero-mean case). -/
def posPricesB (df : DataFrame) : Bool :=
  df.cols.all fun c => df.index.all fun d =>
    match df.entry c d with
    | some p => decide (0 < p)
    | none => true

/-- Embedding of `pd.date_range(start, end, freq)` on whole-day data
(main.py line 349): the dates `start + k*step` for
`k = 0, …, ⌊(stop - start)/step⌋`; the endpoint `stop` appears only
when it falls on the grid. -/
def date_range (start stop step : ℤ) : List ℤ :=
  if start ≤ stop ∧ 0 < step then
    (List.range ((stop - start) / step + 1).toNat).map (fun k : ℕ => start + step * (k : ℤ))
  else []

/-- Target-date resolution (main.py lines 353-358): use the target if
it is in the index, otherwise the last index entry `≤` the target
(`past_matches[-1]`); `none` models the `continue` when no row
qualifies. -/
def resolveTarget (df : DataFrame) (d : ℤ) : Option ℤ :=
  if d ∈ df.index then some d
  else (df.index.filter (fun u => u ≤ d)).getLast?

/-- Embedding of `1 if v >= 0 else -1` over the weight signs (main.py lines
377-378), on an actual number. -/
noncomputable def pySign (v : ℝ) : ℤ :=
  if 0 ≤ v then 1 else -1

/-- The same sign computation when the coordinate may be `NaN`
(modelled by `none`): every Python comparison with `NaN` is `False`,
so `NaN >= 0` selects `-1`. -/
noncomputable def pySignN (v : Option ℝ) : ℤ :=
  match v with
  | some r => pySign r
  | none => -1

/-- The quadrant-matching loop (main.py lines 376-382): scan `PHASES`
in order, keep the first label whose sign pair matches, fall back to
the label 不明 when none does. -/
def phaseFromSigns (sx sy : ℤ) : String :=
  match PHASES.find? (fun ph => ph.x_sign == sx && ph.y_sign == sy) with
  | some ph => ph.name
  | none => "不明"

/-- Phase classification of an actual (non-`NaN`) vector, exactly as
computed by main.py lines 376-382. -/
noncomputable def classifyPhase (x y : ℝ) : String :=
  phaseFromSigns (pySign x) (pySign y)

/-- Embedding of `math.radians`: degrees to radians. -/
noncomputable def radians (deg : ℝ) : ℝ :=
  deg * (Real.pi / 180)

/-- Embedding of `clock_to_rad` (main.py lines 92-94): `radians(90 - clock_hour * 30)`. -/
noncomputable def clock_to_rad (clock_hour : ℝ) : ℝ :=
  radians (90 - clock_hour * 30)

/-- One iteration of the aggregation loop (main.py lines 108-119):
skip codes missing from the table (`if code not in deviations:
continue`), otherwise add `strength*cos(rad)` and `strength*sin(rad)`
to the running totals.  A `NaN` deviation (`none`) poisons both
totals, exactly as `total_x += nan` does. -/
noncomputable def sectorStep (df : DataFrame) (target : ℤ)
    (acc : Option ℝ × Option ℝ) (s : Sector) : Option ℝ × Option ℝ :=
  if s.code ∈ df.cols then
    match deviation df target s.code with
    | none => (none, none)
    | some q =>
        (acc.1.map (fun v => v + (q : ℝ) * Real.cos (clock_to_rad (s.clock : ℝ))),
         acc.2.map (fun v => v + (q : ℝ) * Real.sin (clock_to_rad (s.clock : ℝ))))
  else acc

/-- Embedding of `calculate_vector` (main.py lines 96-123).  Outer `none` models
the Python `None` returned when fewer than 200 rows exist at or
before the target date; inner `none` models a `NaN` coordinate. -/
noncomputable def calculate_vector (df : DataFrame) (target : ℤ) :
    Option (Option ℝ) × Option (Option ℝ) :=
  if (dataUntil df target).length < 200 then (none, none)
  else
    let tot := SECTORS.foldl (sectorStep df target) (some 0, some 0)
    (some (tot.1.map (fun v => v / 3.5)), some (tot.2.map (fun v => v / 3.5)))

/-- Embedding of `round(x, 2)` on a real value.  (Python rounds exact halves to
even; `round` rounds them up — the two agree everywhere else, and no
claim concerns the midpoint convention.) -/
noncomputable def round2 (x : ℝ) : ℝ :=
  ((round (x * 100) : ℤ) : ℝ) / 100

/-- A chart point: both coordinates already rounded; `none` is `NaN`. -/
abbrev Pt := Option ℝ × Option ℝ

/-- The history-append step (main.py lines 360-362): `if x is not
None: history_points.append({round(x,2), round(y,2)})`.  The second
coordinate is `None` only when the first is (see `C9`), so joining it
into the `NaN` layer loses nothing. -/
noncomputable def histStep (acc : List Pt)
    (cv : Option (Option ℝ) × Option (Option ℝ)) : List Pt :=
  match cv.1 with
  | none => acc
  | some xo => acc ++ [(xo.map round2, cv.2.join.map round2)]

/-- One sampling-loop iteration (main.py lines 351-362): resolve the
target date, then append the rounded vector when defined. -/
noncomputable def pipeStep (df : DataFrame) (acc : List Pt) (d : ℤ) : List Pt :=
  match resolveTarget df d with
  | none => acc
  | some vd => histStep acc (calculate_vector df vd)

/-- The point a single target date contributes, if any: the
sampling loop appends exactly the defined, resolved samples. -/
noncomputable def samplePoint (df : DataFrame) (d : ℤ) : Option Pt :=
  match resolveTarget df d with
  | none => none
  | some vd =>
      match (calculate_vector df vd).1 with
      | none => none
      | some xo => some (xo.map round2, (calculate_vector df vd).2.join.map round2)

/-- Outcome of one run of the computational part of `main`
(main.py lines 326-384): `crash` models the uncaught exception on an
empty table (`df.index[-1]`), `staleAbort` the clean `sys.exit(0)`
after the freshness gate, `calcFailed` the `sys.exit(1)` when the
current-date vector is undefined, and `output` the data handed to the
renderer and publisher. -/
inductive RunResult where
  | crash
  | staleAbort
  | calcFailed
  | output (history : List Pt) (current : Pt) (phase : String)

/-- The computational part of `main` (main.py lines 336-384) once the
latest index date (`df.index[-1]`) is in hand: freshness gate, target
grid, sampling loop, current point, phase decision.  `calculate_vector`
is pure, so consulting it twice at the latest date (where Python
stores `curr_x, curr_y` once) is observationally identical. -/
noncomputable def mainAt (df : DataFrame) (today latest : ℤ) : RunResult :=
  if check_market_open latest today = false then .staleAbort
  else
    let history := (date_range (latest - 365) latest 10).foldl (pipeStep df) []
    match (calculate_vector df latest).1 with
    | none => .calcFailed
    | some xo =>
        let yo := (calculate_vector df latest).2.join
        let current : Pt := (xo.map round2, yo.map round2)
        .output (history ++ [current]) current
          (phaseFromSigns (pySignN xo) (pySignN yo))

/-- The computational part of `main` (main.py lines 326-384): look up
the latest index date (`crash` models the uncaught `IndexError` on an
empty table), then run the gate and the pipeline. -/
noncomputable def main (df : DataFrame) (today : ℤ) : RunResult :=
  match df.index.getLast? with
  | none => .crash
  | some latest => mainAt df today latest

/-- Reducing `main` under a known latest index date. -/
theorem main_eq_mainAt (df : DataFrame) (today latest : ℤ)
    (hl : df.index.getLast? = some latest) :
    main df today = mainAt df today latest := by
  unfold main
  rw [hl]

/-- Modelled from the spec (§4.2, under its fully-populated-series
precondition): the per-instrument trailing mean as the spec states
it — the arithmetic mean of the trailing 200 observations ending at
the as-of date inclusive. -/
def specMean (df : DataFrame) (target : ℤ) (c : String) : ℚ :=
  (windowVals df target c).sum / ((windowVals df target c).length : ℚ)

/-- Modelled from the spec (§4.2): the stated closed-form deviation,
`(latest - mean) / mean * 100`, with the latest price taken at or
before the as-of date.  On a fully populated series this coincides
with the code's `deviation` (see `C5`). -/
def specDev (df : DataFrame) (target : ℤ) (c : String) : ℚ :=
  ((currentPrice df target c).getD 0 - specMean df target c) / specMean df target c * 100

/-- Example table: 210 trading days `0..209`; `XLB` observed throughout, `XLY`
observed only on the last 150 days, closing at 110 after earlier
closes of 100. -/
def exDF1 : DataFrame where
  index := (List.range 210).map (fun n => (n : ℤ))
  cols := ["XLB", "XLY"]
  entry := fun c d =>
    if c = "XLB" then (if 0 ≤ d ∧ d ≤ 209 then some 100 else none)
    else if c = "XLY" then
      (if 60 ≤ d ∧ d ≤ 209 then (if d = 209 then some 110 else some 100) else none)
    else none

/-- A one-row table, used to exercise the stale-data branch. -/
def exDF4 : DataFrame where
  index := [0]
  cols := ["XLB"]
  entry := fun _ _ => some 100

/-- A fully populated table: all eleven sector columns over 200
trading days `0..199`, every close 100. -/
def exDF5 : DataFrame where
  index := (List.range 200).map (fun n => (n : ℤ))
  cols := SECTORS.map Sector.code
  entry := fun _ d => if 0 ≤ d ∧ d < 200 then some 100 else none

/-- Trading days `0, 1, 4`: the gap `2, 3` plays the weekend. -/
def exDF6 : DataFrame where
  index := [0, 1, 4]
  cols := ["XLB"]
  entry := fun _ _ => some 100

/-- C10: the Freshness Gate imposes no lower bound on
`diff = today - latest`: whenever the latest data date is on or after
the current UTC date (`diff ≤ 0`, data dated today or in the future),
`check_market_open` proceeds. -/
theorem C10_gate_no_lower_bound (latest today : ℤ) (h : today - latest ≤ 0) :
    check_market_open latest today = true := by
  unfold check_market_open
  split
  · exfalso; omega
  · rfl

theorem C10_witness : check_market_open 10 5 = true :=
  C10_gate_no_lower_bound 10 5 (by norm_num)

/-- C4: the Freshness Gate proceeds exactly when
`diff = today - latest ≤ 1`; when it signals stale data, `main` stops
with the clean `staleAbort` outcome (`sys.exit(0)`), which is a
different outcome from the fatal `calcFailed` (`sys.exit(1)`). -/
theorem C4_freshness_gate :
    (∀ latest today : ℤ, check_market_open latest today = true ↔ today - latest ≤ 1)
    ∧ (∀ df : DataFrame, ∀ today latest : ℤ, df.index.getLast? = some latest →
        check_market_open latest today = false → main df today = RunResult.staleAbort)
    ∧ RunResult.staleAbort ≠ RunResult.calcFailed := by
  refine ⟨?_, ?_, by simp⟩
  · intro latest today
    unfold check_market_open
    split
    · next hgt => simp; omega
    · next hle => simp; omega
  · intro df today latest hl hg
    rw [main_eq_mainAt df today latest hl]
    unfold mainAt
    rw [if_pos hg]

theorem C4_witness :
    check_market_open 0 1 = true ∧ check_market_open 0 2 = false
      ∧ main exDF4 2 = RunResult.staleAbort :=
  ⟨(C4_freshness_gate.1 0 1).mpr (by norm_num), by decide,
   C4_freshness_gate.2.1 exDF4 2 0 (by decide) (by decide)⟩

/-- C2: the Phase Classifier is total with sign(0) treated as
positive: `(x<0, y≥0)` gives 回復期 (Recovery), `(x≥0, y≥0)` 好況期
(Expansion), `(x≥0, y<0)` 後退期 (Slowdown), `(x<0, y<0)` 不況期
(Recession); the fallback label 不明 ("unknown") is never produced. -/
theorem C2_phase_total (x y : ℝ) :
    classifyPhase x y =
      (if 0 ≤ x then (if 0 ≤ y then ("好況期") else ("後退期"))
       else (if 0 ≤ y then ("回復期") else ("不況期")))
    ∧ classifyPhase x y ≠ "不明" := by
  unfold classifyPhase phaseFromSigns pySign PHASES
  by_cases hx : (0:ℝ) ≤ x <;> by_cases hy : (0:ℝ) ≤ y <;>
    simp [hx, hy, List.find?]

/-- C9: `calculate_vector` either fails as a whole (the Python pair
`(None, None)`) or yields both coordinates; a pair with exactly one
defined coordinate is impossible, so the callers' tests of the first
coordinate alone are sound. -/
theorem C9_both_or_neither (df : DataFrame) (target : ℤ) :
    calculate_vector df target = (none, none)
    ∨ ∃ xo yo, calculate_vector df target = (some xo, some yo) := by
  unfold calculate_vector
  split
  · exact Or.inl rfl
  · exact Or.inr ⟨_, _, rfl⟩

/-- C8: the Angle Mapper returns exactly `radians (90 - c * 30)`; it
is injective on the clock range `(0, 12]`, `clock_to_rad 12` equals
`clock_to_rad 0` modulo `2π`, and the two reference positions map to
75° and −255° in radians. -/
theorem C8_angle_mapper :
    (∀ c : ℝ, clock_to_rad c = radians (90 - c * 30))
    ∧ (∀ c₁ ∈ Set.Ioc (0:ℝ) 12, ∀ c₂ ∈ Set.Ioc (0:ℝ) 12,
        clock_to_rad c₁ = clock_to_rad c₂ → c₁ = c₂)
    ∧ (∃ k : ℤ, clock_to_rad 12 - clock_to_rad 0 = k * (2 * Real.pi))
    ∧ clock_to_rad (1/2) = radians 75
    ∧ clock_to_rad (23/2) = radians (-255) := by
  refine ⟨fun c => rfl, ?_, ⟨-1, ?_⟩, ?_, ?_⟩
  · intro c₁ _ c₂ _ heq
    unfold clock_to_rad radians at heq
    have hne : Real.pi / 180 ≠ 0 := div_ne_zero Real.pi_ne_zero (by norm_num)
    have := mul_right_cancel₀ hne heq
    linarith
  · unfold clock_to_rad radians
    push_cast
    ring
  · unfold clock_to_rad radians
    norm_num
  · unfold clock_to_rad radians
    norm_num

theorem C8_witness :
    clock_to_rad (1/2) = radians 75 ∧ (1:ℝ) = 1 :=
  ⟨C8_angle_mapper.2.2.2.1,
   C8_angle_mapper.2.1 1 (Set.mem_Ioc.mpr ⟨by norm_num, by norm_num⟩)
     1 (Set.mem_Ioc.mpr ⟨by norm_num, by norm_num⟩) rfl⟩

set_option maxRecDepth 8000

/-- C1 fails on the code: in `exDF1` the instrument `XLY` has only
150 observations on or before day 209 — fewer than 200 — yet its
deviation is defined, not the no-deviation the claim requires: the
200-observation check is on the table's rows (210 here), and the
pandas mean skips missing values, so `XLY` gets the deviation
`(110 - 15010/150) / (15010/150) * 100 = 14900/1501` computed from
its 150 observed values and contributes to the aggregate. -/
theorem C1_counterexample :
    obsCount exDF1 ("XLY") 209 = 150
    ∧ (deviation exDF1 209 ("XLY")).isSome = true := by decide

/-- C1 amended: the insufficient-history check is global, not
per-instrument — `calculate_vector` yields the no-result pair exactly
when the table has fewer than 200 rows on or before the as-of date;
and an individual instrument's deviation is defined exactly when its
latest cell at or before that date is observed and it has at least one
observed value among the trailing 200 rows (the mean is over the
observed values only, even when there are fewer than 200 of them). -/
theorem C1_amended_history_check (df : DataFrame) (target : ℤ)
    (_hpos : posPricesB df = true) :
    (calculate_vector df target = (none, none)
        ↔ (dataUntil df target).length < 200)
    ∧ ∀ c : String, ((deviation df target c).isSome = true ↔
        (currentPrice df target c).isSome = true ∧ windowVals df target c ≠ []) := by
  constructor
  · unfold calculate_vector
    split
    · next h => exact ⟨fun _ => h, fun _ => rfl⟩
    · next h =>
        constructor
        · intro he
          exact absurd (congrArg Prod.fst he) (by simp)
        · intro hlt
          exact absurd hlt h
  · intro c
    rcases hcp : currentPrice df target c with _ | cp <;>
      rcases hma : ma200 df target c with _ | m
    · simp [deviation, hcp, hma]
    · simp [deviation, hcp, hma]
    · have he : windowVals df target c = [] := by
        by_contra hne
        simp [ma200, hne] at hma
      simp [deviation, hcp, hma, he]
    · have hne : windowVals df target c ≠ [] := by
        intro he
        simp [ma200, he] at hma
      simp [deviation, hcp, hma, hne]

theorem C1_amended_witness :
    calculate_vector exDF1 209 = (none, none)
      ↔ (dataUntil exDF1 209).length < 200 :=
  (C1_amended_history_check exDF1 209 (by decide)).1

/-- C3 fails on the code: with the latest date at day 365 the target
grid starts at the window's start date `365 - 365 = 0` but stops at
day 360 — the window's end date 365 is not a target date, because 365
is not a multiple of the 10-day cadence. -/
theorem C3_counterexample :
    ((365:ℤ) - 365) ∈ date_range (365 - 365) 365 10
    ∧ (365:ℤ) ∉ date_range (365 - 365) 365 10 := by decide

/-- C3 amended: the target grid always contains the window's start
date, and its last entry is 5 days short of the window's end — the
end date itself is never a target (365 is not a multiple of 10); the
current-date vector is instead appended separately after sampling. -/
theorem C3_amended_grid (last : ℤ) :
    (last - 365) ∈ date_range (last - 365) last 10
    ∧ (last - 5) ∈ date_range (last - 365) last 10
    ∧ last ∉ date_range (last - 365) last 10
    ∧ ∀ d ∈ date_range (last - 365) last 10, d ≤ last - 5 := by
  have hcond : last - 365 ≤ last ∧ (0:ℤ) < 10 := by omega
  have h37 : ((last - (last - 365)) / 10 + 1).toNat = 37 := by
    have h365 : last - (last - 365) = 365 := by ring
    rw [h365]
    decide
  unfold date_range
  rw [if_pos hcond, h37]
  refine ⟨?_, ?_, ?_, ?_⟩
  · exact List.mem_map.mpr ⟨0, List.mem_range.mpr (by norm_num), by push_cast; ring⟩
  · exact List.mem_map.mpr ⟨36, List.mem_range.mpr (by norm_num), by push_cast; ring⟩
  · intro hmem
    obtain ⟨k, hk, he⟩ := List.mem_map.mp hmem
    rw [List.mem_range] at hk
    omega
  · intro d hd
    obtain ⟨k, hk, he⟩ := List.mem_map.mp hd
    rw [List.mem_range] at hk
    omega

theorem C3_amended_witness :
    ((365:ℤ) - 365) ∈ date_range (365 - 365) 365 10 ∧ (350:ℤ) ≤ 365 - 5 :=
  ⟨(C3_amended_grid 365).1, (C3_amended_grid 365).2.2.2 350 (by decide)⟩

/-- Every element of a strictly increasing list is at most its last
element. -/
theorem mem_le_getLast_of_sorted {l : List ℤ} (hs : l.Pairwise (· < ·))
    {x : ℤ} (hx : x ∈ l) (h : l ≠ []) : x ≤ l.getLast h := by
  induction l with
  | nil => exact absurd rfl h
  | cons a t ih =>
      rcases List.pairwise_cons.mp hs with ⟨ha, ht⟩
      cases t with
      | nil =>
          rcases List.mem_singleton.mp hx with rfl
          simp [List.getLast]
      | cons b u =>
          rw [List.getLast_cons (by simp)]
          rcases List.mem_cons.mp hx with rfl | hxt
          · exact le_of_lt (ha _ (List.getLast_mem (by simp)))
          · exact ih ht hxt (by simp)

/-- C6: when the index is strictly increasing (the PriceSeries
invariant), the Trajectory Sampler's resolution step maps each target
to the largest index date at or below it — never a later one — and
yields nothing exactly when every index date lies after the target. -/
theorem C6_resolve_latest_at_or_before (df : DataFrame)
    (hs : df.index.Pairwise (· < ·)) (d : ℤ) :
    (∀ v : ℤ, resolveTarget df d = some v →
        v ∈ df.index ∧ v ≤ d ∧ ∀ u ∈ df.index, u ≤ d → u ≤ v)
    ∧ (resolveTarget df d = none ↔ ∀ u ∈ df.index, d < u) := by
  unfold resolveTarget
  split
  · next hin =>
      constructor
      · intro v hv
        injection hv with hdv
        subst hdv
        exact ⟨hin, le_rfl, fun u _ hu => hu⟩
      · constructor
        · intro hv
          exact absurd hv (by simp)
        · intro hall
          exact absurd (hall d hin) (by omega)
  · next hnotin =>
      have hfs : (df.index.filter (fun u => u ≤ d)).Pairwise (· < ·) :=
        List.Pairwise.sublist (List.filter_sublist _) hs
      constructor
      · intro v hv
        have hne : df.index.filter (fun u => u ≤ d) ≠ [] := by
          intro he
          rw [he] at hv
          exact absurd hv (by simp)
        rw [List.getLast?_eq_getLast _ hne] at hv
        rcases Option.some_injective _ hv.symm with rfl
        have hmemf := List.getLast_mem hne
        have hmem := List.mem_filter.mp hmemf
        refine ⟨hmem.1, by simpa using hmem.2, ?_⟩
        intro u hu hud
        exact mem_le_getLast_of_sorted hfs
          (List.mem_filter.mpr ⟨hu, by simpa using hud⟩) hne
      · rw [List.getLast?_eq_none_iff, List.filter_eq_nil_iff]
        constructor
        · intro hall u hu
          have := hall u hu
          simp at this
          omega
        · intro hall u hu
          have := hall u hu
          simp
          omega

theorem C6_witness :
    (1:ℤ) ∈ exDF6.index ∧ (1:ℤ) ≤ 3 ∧ ∀ u ∈ exDF6.index, u ≤ 3 → u ≤ 1 :=
  (C6_resolve_latest_at_or_before exDF6 (by decide) 3).1 1 (by decide)

/-- Lemma: `filterMap` keeps every element when the function succeeds on all
of them. -/
theorem length_filterMap_of_isSome {α β : Type} (f : α → Option β) (l : List α)
    (h : ∀ x ∈ l, (f x).isSome = true) : (l.filterMap f).length = l.length := by
  induction l with
  | nil => rfl
  | cons a t ih =>
      rcases Option.isSome_iff_exists.mp (h a (by simp)) with ⟨b, hb⟩
      rw [List.filterMap_cons, hb]
      simp [ih (fun x hx => h x (by simp [hx]))]

/-- On a column that is observed at every row, the code's deviation is
defined and equals the closed-form deviation stated by the spec. -/
theorem deviation_eq_specDev (df : DataFrame) (target : ℤ) (c : String)
    (hn : 200 ≤ (dataUntil df target).length)
    (hfull : ∀ d ∈ df.index, (df.entry c d).isSome = true) :
    deviation df target c = some (specDev df target c) := by
  have hne : dataUntil df target ≠ [] := by
    intro he
    rw [he] at hn
    simp at hn
  have hlast : (dataUntil df target).getLast? =
      some ((dataUntil df target).getLast hne) :=
    List.getLast?_eq_getLast _ hne
  have hmem : (dataUntil df target).getLast hne ∈ df.index :=
    (List.mem_filter.mp (List.getLast_mem hne)).1
  rcases Option.isSome_iff_exists.mp (hfull _ hmem) with ⟨p, hp⟩
  have hcp : currentPrice df target c = some p := by
    unfold currentPrice
    rw [hlast]
    simpa using hp
  have hwlen : (windowVals df target c).length = 200 := by
    have hall : ∀ x ∈ windowRows df target, (df.entry c x).isSome = true := by
      intro x hx
      exact hfull x ((List.mem_filter.mp (List.drop_subset _ _ hx)).1)
    unfold windowVals
    rw [length_filterMap_of_isSome _ _ hall]
    unfold windowRows
    rw [List.length_drop]
    omega
  have hwne : windowVals df target c ≠ [] := by
    intro he
    rw [he] at hwlen
    simp at hwlen
  have hma : ma200 df target c = some (specMean df target c) := by
    unfold ma200 specMean
    rw [if_neg hwne]
  unfold deviation specDev
  rw [hcp, hma]
  simp

/-- Unrolling the aggregation loop when every listed sector is a
table column with a defined deviation: the running totals stay
defined and accumulate the deviation-weighted cosines and sines. -/
theorem foldl_sectorStep_all_defined (df : DataFrame) (target : ℤ)
    (L : List Sector)
    (h : ∀ s ∈ L, s.code ∈ df.cols
        ∧ deviation df target s.code = some (specDev df target s.code)) :
    ∀ a b : ℝ, L.foldl (sectorStep df target) (some a, some b) =
      (some (a + (L.map (fun s => (specDev df target s.code : ℝ)
          * Real.cos (clock_to_rad (s.clock : ℝ)))).sum),
       some (b + (L.map (fun s => (specDev df target s.code : ℝ)
          * Real.sin (clock_to_rad (s.clock : ℝ)))).sum)) := by
  induction L with
  | nil =>
      intro a b
      simp
  | cons s t ih =>
      intro a b
      rcases h s (by simp) with ⟨hc, hd⟩
      have hstep : sectorStep df target (some a, some b) s =
          (some (a + (specDev df target s.code : ℝ)
              * Real.cos (clock_to_rad (s.clock : ℝ))),
           some (b + (specDev df target s.code : ℝ)
              * Real.sin (clock_to_rad (s.clock : ℝ)))) := by
        unfold sectorStep
        rw [if_pos hc, hd]
        simp
      rw [List.foldl_cons, hstep, ih (fun x hx => h x (by simp [hx]))]
      simp [add_assoc]

/-- C5: on a fully populated table (every sector is a column and every
cell is observed — the spec's own input precondition) with at least
200 rows at or before the as-of date, `calculate_vector` returns
exactly `(Σ dᵢ·cos aᵢ / 3.5, Σ dᵢ·sin aᵢ / 3.5)`, where `dᵢ` is the
spec's closed-form deviation — latest price against the mean of the
trailing 200 observations — and `aᵢ` the instrument's mapped angle. -/
theorem C5_aggregate_formula (df : DataFrame) (target : ℤ)
    (hn : 200 ≤ (dataUntil df target).length)
    (hfull : ∀ c ∈ df.cols, ∀ d ∈ df.index, (df.entry c d).isSome = true)
    (hcols : ∀ s ∈ SECTORS, s.code ∈ df.cols) :
    calculate_vector df target =
      (some (some ((SECTORS.map (fun s => (specDev df target s.code : ℝ)
          * Real.cos (clock_to_rad (s.clock : ℝ)))).sum / 3.5)),
       some (some ((SECTORS.map (fun s => (specDev df target s.code : ℝ)
          * Real.sin (clock_to_rad (s.clock : ℝ)))).sum / 3.5))) := by
  unfold calculate_vector
  rw [if_neg (by omega)]
  have h := foldl_sectorStep_all_defined df target SECTORS
    (fun s hs => ⟨hcols s hs,
      deviation_eq_specDev df target s.code hn (hfull s.code (hcols s hs))⟩) 0 0
  simp [h]

theorem C5_witness :
    calculate_vector exDF5 199 =
      (some (some ((SECTORS.map (fun s => (specDev exDF5 199 s.code : ℝ)
          * Real.cos (clock_to_rad (s.clock : ℝ)))).sum / 3.5)),
       some (some ((SECTORS.map (fun s => (specDev exDF5 199 s.code : ℝ)
          * Real.sin (clock_to_rad (s.clock : ℝ)))).sum / 3.5))) :=
  C5_aggregate_formula exDF5 199 (by decide) (by decide) (by decide)

/-- The sampling loop appends exactly the resolved, defined samples,
in order: a date whose resolution or calculation fails contributes
nothing and does not stop the loop. -/
theorem foldl_pipeStep_eq_filterMap (df : DataFrame) (L : List ℤ) (acc : List Pt) :
    L.foldl (pipeStep df) acc = acc ++ L.filterMap (samplePoint df) := by
  induction L generalizing acc with
  | nil => simp
  | cons d t ih =>
      rw [List.foldl_cons, ih]
      cases hres : resolveTarget df d with
      | none => simp [pipeStep, samplePoint, hres]
      | some vd =>
          cases hcv : (calculate_vector df vd).1 with
          | none => simp [pipeStep, samplePoint, histStep, hres, hcv]
          | some xo => simp [pipeStep, samplePoint, histStep, hres, hcv]

/-- C7: once the freshness gate passes, an undefined vector at the
current (latest) date halts the pipeline with the fatal `calcFailed`
outcome before producing any output; when the current vector is
defined, the run outputs a history that is exactly the defined samples
of the target grid — historical dates yielding no result are silently
omitted while sampling continues — followed by the current point. -/
theorem C7_failure_policy (df : DataFrame) (today latest : ℤ)
    (hl : df.index.getLast? = some latest)
    (hg : check_market_open latest today = true) :
    ((calculate_vector df latest).1 = none → main df today = RunResult.calcFailed)
    ∧ ∀ xo : Option ℝ, (calculate_vector df latest).1 = some xo →
        main df today = RunResult.output
          ((date_range (latest - 365) latest 10).filterMap (samplePoint df)
            ++ [(xo.map round2, ((calculate_vector df latest).2.join).map round2)])
          (xo.map round2, ((calculate_vector df latest).2.join).map round2)
          (phaseFromSigns (pySignN xo) (pySignN ((calculate_vector df latest).2.join))) := by
  rw [main_eq_mainAt df today latest hl]
  unfold mainAt
  rw [if_neg (by simp [hg])]
  constructor
  · intro h
    simp only [h]
  · intro xo hx
    simp only [hx]
    rw [foldl_pipeStep_eq_filterMap]
    simp

theorem C7_witness : main exDF6 5 = RunResult.calcFailed :=
  (C7_failure_policy exDF6 5 4 (by decide) (by decide)).1
    (by unfold calculate_vector; rw [if_pos (by decide)])


